import Mathlib

/-!
Verification of `src/lib/InAppUpdatesNative.ts` (sp-react-native-in-app-updates).

The file shallowly embeds the update-decision engine (`checkNeedsUpdate`,
`startUpdate`) and the event-distribution core (status/result listener
registries and the incoming-event handlers) of `InAppUpdatesNative`.
JavaScript runtime values that matter to the code (strings, numbers, NaN,
undefined, booleans) are modelled by the inductive type `JSVal`; promises
are modelled by `Except` results; calls made to the native provider module
`SpInAppUpdates` are recorded explicitly in traces so that claims about
"the provider is (not) called" are statable.
-/

/-- A JavaScript runtime value, as far as the embedded code distinguishes
them: strings, (integer) numbers, NaN, booleans and undefined. -/
inductive JSVal where
  | str : String → JSVal
  | num : Int → JSVal
  | nan : JSVal
  | bool : Bool → JSVal
  | undef : JSVal
deriving DecidableEq, Repr

/-- JavaScript ToString coercion, restricted to the values of `JSVal`
(used by template-literal interpolation and by `parseInt`). -/
def jsToString : JSVal → String
  | JSVal.str s => s
  | JSVal.num n => toString n
  | JSVal.nan => "NaN"
  | JSVal.bool b => if b then "true" else "false"
  | JSVal.undef => "undefined"

/-- JavaScript falsiness test for `JSVal` (`!v` in the source): the empty
string, the number 0, NaN, false and undefined are falsy. -/
def jsFalsy : JSVal → Bool
  | JSVal.str s => s = ""
  | JSVal.num n => n = 0
  | JSVal.nan => true
  | JSVal.bool b => !b
  | JSVal.undef => true

/-- Fold a list of decimal digit characters into the natural number they
denote, most significant first. -/
def digitsToNat (l : List Char) : Nat :=
  l.foldl (fun acc c => acc * 10 + (c.toNat - 48)) 0

/-- `parseInt(v, 10)` from JavaScript, as used at lines 67-68 of the
source: coerce to string, skip leading whitespace, read an optional sign
and then the maximal run of leading decimal digits; if that run is empty
the result is NaN, otherwise the signed integer it denotes. -/
def parseIntJS (v : JSVal) : JSVal :=
  let s := (jsToString v).data.dropWhile (fun c => c = ' ' ∨ c = '\t' ∨ c = '\n' ∨ c = '\r')
  let signAndRest : Int × List Char :=
    match s with
    | '-' :: rest => (-1, rest)
    | '+' :: rest => (1, rest)
    | rest => (1, rest)
  let digits := signAndRest.2.takeWhile Char.isDigit
  if digits.isEmpty then JSVal.nan
  else JSVal.num (signAndRest.1 * (digitsToNat digits : Int))

namespace UPDATE_STATUS

/-- Modelled from the spec: the availability-status constants are injected
by the native `SpInAppUpdates` module (not under `src/`); the spec only
requires them to be a fixed closed set of distinct values, of which only
`AVAILABLE` can lead to `shouldUpdate = true`. Concrete Play-Core integer
values are used. -/
def AVAILABLE : Int := 2

/-- Modelled from the spec: status constant for "no update available". -/
def UNAVAILABLE : Int := 1

/-- Modelled from the spec: status constant for "availability unknown". -/
def UNKNOWN : Int := 0

end UPDATE_STATUS

namespace UPDATE_TYPE

/-- Modelled from the spec: the update-type constants are injected by the
native module (not under `src/`); Play-Core integer values are used. -/
def IMMEDIATE : Int := 1

/-- Modelled from the spec: the flexible update-type constant. -/
def FLEXIBLE : Int := 0

end UPDATE_TYPE

/-- The availability info the native provider resolves
`SpInAppUpdates.checkNeedsUpdate()` with (`InAppUpdateExtras` in the
source): an availability status and a native version code. -/
structure InAppUpdateExtras where
  updateAvailability : Int
  versionCode : JSVal
deriving DecidableEq, Repr

/-- `CheckOptions` from the source: a required current version (absent or
empty models a falsy `curVersion`), an optional converter from the native
version representation to a semantic version, and an optional custom
comparator. -/
structure CheckOptions where
  curVersion : Option String
  toSemverConverter : Option (JSVal → JSVal)
  customVersionComparator : Option (JSVal → String → Int)

/-- The empty object `{}` that `(checkOptions || {})` destructures when no
options are passed. -/
def emptyCheckOptions : CheckOptions :=
  { curVersion := none, toSemverConverter := none, customVersionComparator := none }

/-- The decision record (`NeedsUpdateResponseNative` in the source). -/
structure NeedsUpdateResponseNative where
  shouldUpdate : Bool
  storeVersion : Option JSVal
  reason : Option String
  other : InAppUpdateExtras
deriving DecidableEq, Repr

/-- An error raised through `InAppUpdatesBase.throwError`. Modelled from
the spec: `InAppUpdatesBase` is not under `src/`; the spec says errors are
"tagged with the originating operation name". -/
structure ErrInfo where
  message : String
  originatedFrom : String
deriving DecidableEq, Repr

/-- Calls the embedded `checkNeedsUpdate` makes to the outside world: how
often the provider availability query ran and how often each comparator
was invoked. -/
structure CheckTrace where
  providerCalls : Nat
  defaultComparatorCalls : Nat
  customComparatorCalls : Nat
deriving DecidableEq, Repr

/-- Compare two lists of numeric version components left to right, a
missing trailing component counting as zero. -/
def compareComponentLists : List Nat → List Nat → Int
  | [], bs => if bs.all (fun x => x = 0) then 0 else -1
  | a :: as, [] => if (a :: as).all (fun x => x = 0) then 0 else 1
  | a :: as, b :: bs =>
    if a < b then -1 else if b < a then 1 else compareComponentLists as bs

/-- Split a character list on the dot separator (the semantics of
`splitOn "."` for a single-character separator). -/
def splitOnDot : List Char → List (List Char)
  | [] => [[]]
  | c :: rest =>
    if c = '.' then [] :: splitOnDot rest
    else
      match splitOnDot rest with
      | [] => [[c]]
      | comp :: comps => (c :: comp) :: comps

/-- Parse a dot-separated semantic version string into its numeric
components; `none` when any component is empty or non-numeric. -/
def parseSemverComponents (s : String) : Option (List Nat) :=
  (splitOnDot s.data).mapM
    (fun c => if !c.isEmpty ∧ c.all Char.isDigit then some (digitsToNat c) else none)

/-- Modelled from the spec: `compareVersions` lives in `src/lib/utils`,
which is not under `src/`. Spec section 4.1: component-wise comparison of
dot-separated non-negative integer components, missing trailing components
treated as zero, malformed input fails fast with a parsing error (`none`
here, which the engine surfaces as a rejected promise). -/
def compareVersions (a : JSVal) (b : String) : Option Int :=
  match parseSemverComponents (jsToString a), parseSemverComponents b with
  | some xs, some ys => some (compareComponentLists xs ys)
  | _, _ => none

/-- `newAppV` after the optional conversion step of `checkNeedsUpdate`
(lines 117-119 of the source): the converter applied to the native version
code when supplied, the raw native version code otherwise. -/
def remoteSemverOf (o : CheckOptions) (info : InAppUpdateExtras) : JSVal :=
  match o.toSemverConverter with
  | some conv => conv info.versionCode
  | none => info.versionCode

/-- `vCompRes` of `checkNeedsUpdate` (lines 124-127 of the source): the
custom comparator when supplied, else the default `compareVersions`;
`none` only when the default comparator fails to parse. -/
def comparisonOf (o : CheckOptions) (cv : String) (info : InAppUpdateExtras) : Option Int :=
  match o.customVersionComparator with
  | some cmp => some (cmp (remoteSemverOf o info) cv)
  | none => compareVersions (remoteSemverOf o info) cv

/-- Whether `!curVersion` holds for the destructured options: options
object absent, `curVersion` absent, or `curVersion` the empty string. -/
def curVersionFalsy (opts : Option CheckOptions) : Bool :=
  match opts with
  | none => true
  | some o =>
    match o.curVersion with
    | none => true
    | some cv => cv = ""

/-- The configuration-error message of line 110 of the source. -/
def missingCurVersionMsg : String :=
  "You have to include at least the curVersion to the options passed in checkNeedsUpdate"

/-- The decision record built in the AVAILABLE branch once the comparison
result `v` is known (lines 129-142 of the source). -/
def mkDecision (o : CheckOptions) (cv : String) (info : InAppUpdateExtras) (v : Int) :
    NeedsUpdateResponseNative :=
  let newAppV := remoteSemverOf o info
  if 0 < v then
    { shouldUpdate := true, storeVersion := some newAppV, reason := none, other := info }
  else
    { shouldUpdate := false, storeVersion := some newAppV,
      reason := some ("current version (" ++ cv ++ ") is already later than the latest store version ("
        ++ jsToString newAppV
        ++ (if o.toSemverConverter.isSome then " - originated from " ++ jsToString info.versionCode else "")
        ++ ")"),
      other := info }

/-- `checkNeedsUpdate` of `InAppUpdatesNative` (lines 101-153 of the
source). `opts` is the caller's `checkOptions` (`none` for a missing
argument); `info` is the value the native provider's availability query
resolves with. The result pairs the settled promise (`Except`) with the
trace of external calls. -/
def checkNeedsUpdate (opts : Option CheckOptions) (info : InAppUpdateExtras) :
    Except ErrInfo NeedsUpdateResponseNative × CheckTrace :=
  let o := opts.getD emptyCheckOptions
  if curVersionFalsy opts then
    (Except.error { message := missingCurVersionMsg, originatedFrom := "checkNeedsUpdate" },
     { providerCalls := 0, defaultComparatorCalls := 0, customComparatorCalls := 0 })
  else
    let cv := o.curVersion.getD ""
    if info.updateAvailability = UPDATE_STATUS.AVAILABLE then
      let newAppV := remoteSemverOf o info
      if o.toSemverConverter.isSome ∧ jsFalsy newAppV then
        (Except.error
          { message := "Couldnt convert " ++ jsToString info.versionCode ++ " using your custom semver converter",
            originatedFrom := "checkNeedsUpdate" },
         { providerCalls := 1, defaultComparatorCalls := 0, customComparatorCalls := 0 })
      else
        match o.customVersionComparator with
        | some cmp =>
          (Except.ok (mkDecision o cv info (cmp newAppV cv)),
           { providerCalls := 1, defaultComparatorCalls := 0, customComparatorCalls := 1 })
        | none =>
          match compareVersions newAppV cv with
          | some v =>
            (Except.ok (mkDecision o cv info v),
             { providerCalls := 1, defaultComparatorCalls := 1, customComparatorCalls := 0 })
          | none =>
            (Except.error
              { message := "semver comparison failed", originatedFrom := "checkNeedsUpdate" },
             { providerCalls := 1, defaultComparatorCalls := 1, customComparatorCalls := 0 })
    else
      (Except.ok
        { shouldUpdate := false, storeVersion := none,
          reason := some ("status: " ++ toString info.updateAvailability ++ " means there's no new version available"),
          other := info },
       { providerCalls := 1, defaultComparatorCalls := 0, customComparatorCalls := 0 })

/-- `StartUpdateOptionsAndroid` from the source; `updateType` keeps its
raw runtime value so that invalid inputs are representable. -/
structure StartUpdateOptionsAndroid where
  updateType : JSVal
deriving DecidableEq, Repr

/-- The `updateType` destructured from `(updateOptions || {})` at lines
160-162 of the source: `undefined` when the options object is missing. -/
def updateTypeOf (updateOptions : Option StartUpdateOptionsAndroid) : JSVal :=
  match updateOptions with
  | some o => o.updateType
  | none => JSVal.undef

/-- `updateType !== UPDATE_TYPE.FLEXIBLE && updateType !== UPDATE_TYPE.IMMEDIATE`
negated: the validity test of line 163 of the source. -/
def isValidUpdateType (ut : JSVal) : Bool :=
  ut = JSVal.num UPDATE_TYPE.FLEXIBLE ∨ ut = JSVal.num UPDATE_TYPE.IMMEDIATE

/-- The configuration-error message of line 164 of the source. -/
def invalidUpdateTypeMsg (ut : JSVal) : String :=
  "updateType should be one of: " ++ toString UPDATE_TYPE.FLEXIBLE ++ " or "
    ++ toString UPDATE_TYPE.IMMEDIATE ++ ", " ++ jsToString ut ++ " was passed."

/-- `startUpdate` of `InAppUpdatesNative` (lines 159-170 of the source).
The second component records every invocation of the provider's
`SpInAppUpdates.startUpdate`, with the argument it was passed. -/
def startUpdate (updateOptions : Option StartUpdateOptionsAndroid) :
    Except ErrInfo Unit × List JSVal :=
  let ut := updateTypeOf updateOptions
  if ut ≠ JSVal.num UPDATE_TYPE.FLEXIBLE ∧ ut ≠ JSVal.num UPDATE_TYPE.IMMEDIATE then
    (Except.error { message := invalidUpdateTypeMsg ut, originatedFrom := "startUpdate" }, [])
  else
    (Except.ok (), [ut])

/-- Modelled from the spec: the listener registry lives in
`InAppUpdatesBase`, which is not under `src/`. The spec describes a
set-like collection keyed by callback identity, with idempotent add;
callbacks are modelled by identity tokens (`Nat`). -/
def addListenerReg (r : List Nat) (cb : Nat) : List Nat :=
  if cb ∈ r then r else r ++ [cb]

/-- Modelled from the spec: removal from the listener registry by callback
identity (see `addListenerReg`). -/
def removeListenerReg (r : List Nat) (cb : Nat) : List Nat :=
  r.filter (fun x => x ≠ cb)

/-- Modelled from the spec: `hasListeners()` of the listener registry —
whether any callback is registered. -/
def hasListenersReg (r : List Nat) : Bool :=
  !r.isEmpty

/-- `addStatusUpdateListener` of `InAppUpdatesNative` (lines 76-81 of the
source): add the callback, then call
`SpInAppUpdates.setStatusUpdateSubscription(true)` whenever the registry
now has listeners. The second component records the arguments of the
`setStatusUpdateSubscription` calls the invocation makes. -/
def addStatusUpdateListener (r : List Nat) (cb : Nat) : List Nat × List Bool :=
  let r' := addListenerReg r cb
  (r', if hasListenersReg r' then [true] else [])

/-- `removeStatusUpdateListener` of `InAppUpdatesNative` (lines 83-88 of
the source): remove the callback, then call
`SpInAppUpdates.setStatusUpdateSubscription(false)` whenever the registry
now has no listeners. -/
def removeStatusUpdateListener (r : List Nat) (cb : Nat) : List Nat × List Bool :=
  let r' := removeListenerReg r cb
  (r', if !hasListenersReg r' then [false] else [])

/-- One public operation on the status-listener registry. -/
inductive ListenerOp where
  | add : Nat → ListenerOp
  | remove : Nat → ListenerOp
deriving DecidableEq, Repr

/-- Run a sequence of add/remove operations against the status-listener
registry, accumulating every `setStatusUpdateSubscription` argument in
order. -/
def runListenerOps (r : List Nat) : List ListenerOp → List Nat × List Bool
  | [] => (r, [])
  | ListenerOp.add cb :: rest =>
    let step := addStatusUpdateListener r cb
    let tail := runListenerOps step.1 rest
    (tail.1, step.2 ++ tail.2)
  | ListenerOp.remove cb :: rest =>
    let step := removeStatusUpdateListener r cb
    let tail := runListenerOps step.1 rest
    (tail.1, step.2 ++ tail.2)

/-- An incoming status-update event (`IncomingStatusUpdateEvent` in the
source): the two byte-count fields the handler rewrites, plus all other
fields, kept as an association list so that "unchanged" is statable. -/
structure IncomingStatusUpdateEvent where
  bytesDownloaded : JSVal
  totalBytesToDownload : JSVal
  otherFields : List (String × JSVal)
deriving DecidableEq, Repr

/-- The spread-plus-overwrite of lines 69-73 of the source: the event with
its two byte-count fields replaced by their `parseInt(-, 10)` parses and
every other field untouched. -/
def normalizeStatusEvent (e : IncomingStatusUpdateEvent) : IncomingStatusUpdateEvent :=
  { e with
    bytesDownloaded := parseIntJS e.bytesDownloaded,
    totalBytesToDownload := parseIntJS e.totalBytesToDownload }

/-- Modelled from the spec: `emitEvent` of the listener registry (in
`InAppUpdatesBase`, not under `src/`) delivers one payload to every
registered callback exactly once. -/
def emitEventReg {α : Type} (r : List Nat) (payload : α) : List (Nat × α) :=
  r.map (fun cb => (cb, payload))

/-- `onIncomingNativeStatusUpdate` of `InAppUpdatesNative` (lines 64-74 of
the source): normalize the byte counts, then emit to every status
listener. The result lists each (listener, delivered event) pair. -/
def onIncomingNativeStatusUpdate (statusUpdateListeners : List Nat)
    (event : IncomingStatusUpdateEvent) : List (Nat × IncomingStatusUpdateEvent) :=
  emitEventReg statusUpdateListeners (normalizeStatusEvent event)

/-- `onIncomingNativeResult` of `InAppUpdatesNative` (lines 60-62 of the
source): emit the raw event to every result listener, verbatim. The
payload type is arbitrary since the handler never inspects it. -/
def onIncomingNativeResult {α : Type} (resultListeners : List Nat) (event : α) :
    List (Nat × α) :=
  emitEventReg resultListeners event

/-- Concrete check options: only a current version. -/
def plainOpts (cv : String) : CheckOptions :=
  { curVersion := some cv, toSemverConverter := none, customVersionComparator := none }

/-- Concrete availability info: an update to version 2.0.0 is available. -/
def availInfo : InAppUpdateExtras :=
  { updateAvailability := UPDATE_STATUS.AVAILABLE, versionCode := JSVal.str "2.0.0" }

/-- Concrete availability info with status UNAVAILABLE. -/
def unavailInfo : InAppUpdateExtras :=
  { updateAvailability := UPDATE_STATUS.UNAVAILABLE, versionCode := JSVal.num 5 }

/-- Concrete check options whose converter is the identity, so the
converted value has the same representation as the raw native value. -/
def identityConvOpts : CheckOptions :=
  { curVersion := some "2.0.0", toSemverConverter := some (fun v => v),
    customVersionComparator := none }

/-- Concrete availability info whose native version is already
semver-shaped, for use with `identityConvOpts`. -/
def semverNativeInfo : InAppUpdateExtras :=
  { updateAvailability := UPDATE_STATUS.AVAILABLE, versionCode := JSVal.str "1.0.0" }

/-- Concrete check options whose converter always returns the empty
string (a falsy conversion result). -/
def emptyConvOpts : CheckOptions :=
  { curVersion := some "1.0.0", toSemverConverter := some (fun _ => JSVal.str ""),
    customVersionComparator := none }

/-- Concrete availability info with a numeric native version code. -/
def numericNativeInfo : InAppUpdateExtras :=
  { updateAvailability := UPDATE_STATUS.AVAILABLE, versionCode := JSVal.num 123 }

/-- Concrete raw status event with string-encoded byte counts. -/
def rawStatusEvent : IncomingStatusUpdateEvent :=
  { bytesDownloaded := JSVal.str "1024", totalBytesToDownload := JSVal.str "2048",
    otherFields := [("status", JSVal.num 11)] }

/-- The registry after an add never reads as empty: the callback just
added is in it. -/
theorem addListenerReg_isEmpty_false (r : List Nat) (cb : Nat) :
    (addListenerReg r cb).isEmpty = false := by
  unfold addListenerReg
  by_cases h : cb ∈ r
  · simp only [h, if_true]
    cases r with
    | nil => simp at h
    | cons a as => rfl
  · simp [h]

/-- `mkDecision` recommends updating exactly when the comparison result
is strictly positive. -/
theorem mkDecision_shouldUpdate_iff (o : CheckOptions) (cv : String)
    (info : InAppUpdateExtras) (v : Int) :
    (mkDecision o cv info v).shouldUpdate = true ↔ 0 < v := by
  unfold mkDecision
  by_cases h : 0 < v <;> simp [h]

/-- `mkDecision` populates `reason` exactly when it does not recommend
updating. -/
theorem mkDecision_reason_eq (o : CheckOptions) (cv : String)
    (info : InAppUpdateExtras) (v : Int) :
    (mkDecision o cv info v).reason.isSome = !(mkDecision o cv info v).shouldUpdate := by
  unfold mkDecision
  by_cases h : 0 < v <;> simp [h]

/-- C1: every decision record resolved by `checkNeedsUpdate` has
`shouldUpdate = true` only when the provider-reported status is AVAILABLE
and the comparison of the remote semantic version against `curVersion` is
strictly positive; and `reason` is present exactly in the records where
`shouldUpdate` is false. -/
theorem C1_decision_invariant (opts : Option CheckOptions) (info : InAppUpdateExtras)
    (d : NeedsUpdateResponseNative) (t : CheckTrace)
    (h : checkNeedsUpdate opts info = (Except.ok d, t)) :
    (d.shouldUpdate = true →
      info.updateAvailability = UPDATE_STATUS.AVAILABLE ∧
      ∃ v : Int,
        comparisonOf (opts.getD emptyCheckOptions)
          ((opts.getD emptyCheckOptions).curVersion.getD "") info = some v ∧ 0 < v) ∧
    d.reason.isSome = !d.shouldUpdate := by
  simp only [checkNeedsUpdate] at h
  split at h
  · simp at h
  · split at h
    · rename_i havail
      split at h
      · simp at h
      · split at h
        · rename_i cmp hcmp
          obtain ⟨h1, _⟩ := Prod.mk.injEq .. ▸ h
          obtain rfl : d = _ := (Except.ok.injEq .. ▸ h1).symm
          refine ⟨fun hsu => ⟨havail, ?_⟩, mkDecision_reason_eq ..⟩
          exact ⟨_, by simp [comparisonOf, hcmp], (mkDecision_shouldUpdate_iff ..).mp hsu⟩
        · rename_i hcmp
          split at h
          · rename_i v hcv
            obtain ⟨h1, _⟩ := Prod.mk.injEq .. ▸ h
            obtain rfl : d = _ := (Except.ok.injEq .. ▸ h1).symm
            refine ⟨fun hsu => ⟨havail, ?_⟩, mkDecision_reason_eq ..⟩
            exact ⟨v, by simp [comparisonOf, hcmp, hcv], (mkDecision_shouldUpdate_iff ..).mp hsu⟩
          · simp at h
    · obtain ⟨h1, _⟩ := Prod.mk.injEq .. ▸ h
      obtain rfl : d = _ := (Except.ok.injEq .. ▸ h1).symm
      exact ⟨fun hsu => by simp at hsu, by simp⟩

/-- C1 witness: a concrete AVAILABLE / newer-remote run of
`checkNeedsUpdate`, on which the invariant is instantiated. -/
theorem C1_decision_invariant_witness :
    checkNeedsUpdate (some (plainOpts "1.0.0")) availInfo =
      (Except.ok
        { shouldUpdate := true, storeVersion := some (JSVal.str "2.0.0"),
          reason := none, other := availInfo },
       { providerCalls := 1, defaultComparatorCalls := 1, customComparatorCalls := 0 }) ∧
    (({ shouldUpdate := true, storeVersion := some (JSVal.str "2.0.0"),
        reason := none, other := availInfo } : NeedsUpdateResponseNative).shouldUpdate = true →
      availInfo.updateAvailability = UPDATE_STATUS.AVAILABLE ∧
      ∃ v : Int,
        comparisonOf ((some (plainOpts "1.0.0")).getD emptyCheckOptions)
          (((some (plainOpts "1.0.0")).getD emptyCheckOptions).curVersion.getD "") availInfo =
          some v ∧ 0 < v) ∧
    ({ shouldUpdate := true, storeVersion := some (JSVal.str "2.0.0"),
       reason := none, other := availInfo } : NeedsUpdateResponseNative).reason.isSome =
      !({ shouldUpdate := true, storeVersion := some (JSVal.str "2.0.0"),
          reason := none, other := availInfo } : NeedsUpdateResponseNative).shouldUpdate :=
  ⟨by rfl,
   C1_decision_invariant (some (plainOpts "1.0.0")) availInfo
     { shouldUpdate := true, storeVersion := some (JSVal.str "2.0.0"),
       reason := none, other := availInfo }
     { providerCalls := 1, defaultComparatorCalls := 1, customComparatorCalls := 0 }
     (by rfl)⟩

/-- C2 counterexample: starting from the empty registry, the sequence
add(0); add(1) keeps a listener registered from the first add on, so the
claim allows only the single enable call of the first add; the code makes
an enable call on the second add as well. -/
theorem C2_counterexample_second_add_enables :
    (runListenerOps [] [ListenerOp.add 0, ListenerOp.add 1]).2 = [true, true] ∧
    (runListenerOps [] [ListenerOp.add 0, ListenerOp.add 1]).2 ≠ [true] := by
  constructor
  · rfl
  · simp [runListenerOps, addStatusUpdateListener, addListenerReg, hasListenersReg]

/-- C2 (amended): adding the first status listener causes exactly one
enable call and removing the last causes exactly one disable call, but
every add leaves the registry non-empty and issues an enable call, while
removes that leave a listener registered issue no call. -/
theorem C2_subscription_toggle (r : List Nat) (cb : Nat) :
    (addStatusUpdateListener [] cb).2 = [true] ∧
    (removeStatusUpdateListener [cb] cb).2 = [false] ∧
    (addStatusUpdateListener r cb).2 = [true] ∧
    ((removeListenerReg r cb).isEmpty = false → (removeStatusUpdateListener r cb).2 = []) := by
  refine ⟨by simp [addStatusUpdateListener, addListenerReg, hasListenersReg], ?_, ?_, ?_⟩
  · simp [removeStatusUpdateListener, removeListenerReg, hasListenersReg]
  · simp [addStatusUpdateListener, hasListenersReg, addListenerReg_isEmpty_false]
  · intro h
    simp [removeStatusUpdateListener, hasListenersReg, h]

/-- C2 witness: removing listener 0 from the registry [0, 1] leaves
listener 1 registered and issues no subscription call. -/
theorem C2_subscription_toggle_witness :
    (removeListenerReg [0, 1] 0).isEmpty = false ∧
    (removeStatusUpdateListener [0, 1] 0).2 = [] :=
  ⟨by decide, (C2_subscription_toggle [0, 1] 0).2.2.2 (by decide)⟩

/-- C3: whenever `curVersion` is missing (options object absent, field
absent, or the empty string), `checkNeedsUpdate` rejects with the
configuration error tagged with the operation name, and the trace records
zero provider calls (and zero comparator calls). -/
theorem C3_missing_curVersion_rejects_early (opts : Option CheckOptions)
    (info : InAppUpdateExtras) (h : curVersionFalsy opts = true) :
    checkNeedsUpdate opts info =
      (Except.error { message := missingCurVersionMsg, originatedFrom := "checkNeedsUpdate" },
       { providerCalls := 0, defaultComparatorCalls := 0, customComparatorCalls := 0 }) := by
  simp [checkNeedsUpdate, h]

/-- C3 witness: calling `checkNeedsUpdate` with no options at all. -/
theorem C3_missing_curVersion_rejects_early_witness :
    curVersionFalsy none = true ∧
    checkNeedsUpdate none availInfo =
      (Except.error { message := missingCurVersionMsg, originatedFrom := "checkNeedsUpdate" },
       { providerCalls := 0, defaultComparatorCalls := 0, customComparatorCalls := 0 }) :=
  ⟨by decide, C3_missing_curVersion_rejects_early none availInfo (by decide)⟩

/-- C4 counterexample: with status UNAVAILABLE the code resolves with a
reason that carries the literal prefix "status: " before the status value,
so the reason is not of the claimed form "<status> means there's no new
version available". -/
theorem C4_counterexample_status_prefix :
    (checkNeedsUpdate (some (plainOpts "1.0.0")) unavailInfo).1 =
      Except.ok
        { shouldUpdate := false, storeVersion := none,
          reason := some ("status: 1 means there's no new version available"),
          other := unavailInfo } ∧
    some ("status: 1 means there's no new version available") ≠
      some ("1 means there's no new version available") := by
  exact ⟨by rfl, by decide⟩

/-- C4 (amended): for every provider result whose status is not
AVAILABLE, `checkNeedsUpdate` resolves with `shouldUpdate` false, the
reason "status: <status> means there's no new version available", the raw
availability info in `other`, and a trace with zero comparator
invocations of either kind. -/
theorem C4_unavailable_status_decision (opts : Option CheckOptions)
    (info : InAppUpdateExtras) (h1 : curVersionFalsy opts = false)
    (h2 : info.updateAvailability ≠ UPDATE_STATUS.AVAILABLE) :
    checkNeedsUpdate opts info =
      (Except.ok
        { shouldUpdate := false, storeVersion := none,
          reason := some ("status: " ++ toString info.updateAvailability
            ++ " means there's no new version available"),
          other := info },
       { providerCalls := 1, defaultComparatorCalls := 0, customComparatorCalls := 0 }) := by
  simp [checkNeedsUpdate, h1, h2]

/-- C4 witness: a concrete UNAVAILABLE provider result. -/
theorem C4_unavailable_status_decision_witness :
    (curVersionFalsy (some (plainOpts "1.0.0")) = false ∧
     unavailInfo.updateAvailability ≠ UPDATE_STATUS.AVAILABLE) ∧
    checkNeedsUpdate (some (plainOpts "1.0.0")) unavailInfo =
      (Except.ok
        { shouldUpdate := false, storeVersion := none,
          reason := some ("status: " ++ toString unavailInfo.updateAvailability
            ++ " means there's no new version available"),
          other := unavailInfo },
       { providerCalls := 1, defaultComparatorCalls := 0, customComparatorCalls := 0 }) :=
  ⟨⟨by decide, by decide⟩,
   C4_unavailable_status_decision (some (plainOpts "1.0.0")) unavailInfo (by decide) (by decide)⟩

/-- C5 counterexample: with the identity converter the converted value has
exactly the representation of the raw native value, yet the reason still
carries the origin note " - originated from 1.0.0"; so the note does not
require the converted value to differ from the raw one. -/
theorem C5_counterexample_identity_converter :
    remoteSemverOf identityConvOpts semverNativeInfo = semverNativeInfo.versionCode ∧
    (checkNeedsUpdate (some identityConvOpts) semverNativeInfo).1 =
      Except.ok
        { shouldUpdate := false, storeVersion := some (JSVal.str "1.0.0"),
          reason := some ("current version (2.0.0) is already later than the latest store version (1.0.0 - originated from 1.0.0)"),
          other := semverNativeInfo } :=
  ⟨by rfl, by rfl⟩

/-- C5 (amended): in the `shouldUpdate`-false reason produced when the
status is AVAILABLE and the comparison is not strictly positive, the
origin note " - originated from <nativeVersion>" appears exactly when a
`toSemverConverter` was supplied, regardless of whether the converted
value differs from the raw native value. -/
theorem C5_origin_note_iff_converter (o : CheckOptions) (cv : String)
    (info : InAppUpdateExtras) (v : Int)
    (h1 : o.curVersion = some cv) (h2 : cv ≠ "")
    (h3 : ¬(o.toSemverConverter.isSome ∧ jsFalsy (remoteSemverOf o info)))
    (h4 : info.updateAvailability = UPDATE_STATUS.AVAILABLE)
    (h5 : comparisonOf o cv info = some v) (h6 : ¬0 < v) :
    (checkNeedsUpdate (some o) info).1 =
      Except.ok
        { shouldUpdate := false, storeVersion := some (remoteSemverOf o info),
          reason := some ("current version (" ++ cv
            ++ ") is already later than the latest store version ("
            ++ jsToString (remoteSemverOf o info)
            ++ (if o.toSemverConverter.isSome then
                  " - originated from " ++ jsToString info.versionCode
                else "")
            ++ ")"),
          other := info } := by
  have hnf : ¬(curVersionFalsy (some o) = true) := by
    simp [curVersionFalsy, h1, h2]
  simp only [checkNeedsUpdate, Option.getD_some]
  rw [if_neg hnf, h1]
  simp only [Option.getD_some]
  rw [if_pos h4, if_neg h3]
  cases hcmp : o.customVersionComparator with
  | some cmp =>
    have hv : cmp (remoteSemverOf o info) cv = v := by
      simpa [comparisonOf, hcmp] using h5
    simp [hcmp, hv, mkDecision, h6]
  | none =>
    have hv : compareVersions (remoteSemverOf o info) cv = some v := by
      simpa [comparisonOf, hcmp] using h5
    simp [hcmp, hv, mkDecision, h6]

/-- C5 witness: the identity-converter scenario, where the origin note is
present although converted and raw values coincide. -/
theorem C5_origin_note_iff_converter_witness :
    (identityConvOpts.curVersion = some "2.0.0" ∧
     ¬(identityConvOpts.toSemverConverter.isSome ∧
        jsFalsy (remoteSemverOf identityConvOpts semverNativeInfo)) ∧
     comparisonOf identityConvOpts "2.0.0" semverNativeInfo = some (-1)) ∧
    (checkNeedsUpdate (some identityConvOpts) semverNativeInfo).1 =
      Except.ok
        { shouldUpdate := false,
          storeVersion := some (remoteSemverOf identityConvOpts semverNativeInfo),
          reason := some ("current version (" ++ "2.0.0"
            ++ ") is already later than the latest store version ("
            ++ jsToString (remoteSemverOf identityConvOpts semverNativeInfo)
            ++ (if identityConvOpts.toSemverConverter.isSome then
                  " - originated from " ++ jsToString semverNativeInfo.versionCode
                else "")
            ++ ")"),
          other := semverNativeInfo } :=
  ⟨⟨by rfl, by simp [identityConvOpts, remoteSemverOf, semverNativeInfo, jsFalsy], by rfl⟩,
   C5_origin_note_iff_converter identityConvOpts "2.0.0" semverNativeInfo (-1)
     (by rfl) (by decide)
     (by simp [identityConvOpts, remoteSemverOf, semverNativeInfo, jsFalsy])
     (by rfl) (by rfl) (by decide)⟩

/-- C6: every registered status listener receives the incoming event with
its two byte-count fields replaced by their base-10 `parseInt` parses and
every other field unchanged; the parse sends the string "1024" to the
number 1024 and "2048" to 2048, a non-numeric field parses to NaN, and
such an event is still delivered (the delivered event shape does not
depend on whether the parse succeeded). -/
theorem C6_status_event_normalization (registry : List Nat)
    (e : IncomingStatusUpdateEvent) (cb : Nat) (h : cb ∈ registry) :
    ((cb, normalizeStatusEvent e) ∈ onIncomingNativeStatusUpdate registry e ∧
     (normalizeStatusEvent e).bytesDownloaded = parseIntJS e.bytesDownloaded ∧
     (normalizeStatusEvent e).totalBytesToDownload = parseIntJS e.totalBytesToDownload ∧
     (normalizeStatusEvent e).otherFields = e.otherFields) ∧
    parseIntJS (JSVal.str "1024") = JSVal.num 1024 ∧
    parseIntJS (JSVal.str "2048") = JSVal.num 2048 ∧
    parseIntJS (JSVal.str "not-a-number") = JSVal.nan := by
  refine ⟨⟨?_, rfl, rfl, rfl⟩, by decide, by decide, by decide⟩
  simp only [onIncomingNativeStatusUpdate, emitEventReg]
  exact List.mem_map_of_mem _ h

/-- C6 witness: an event with string byte counts delivered to the one
registered listener. -/
theorem C6_status_event_normalization_witness :
    (7 ∈ ([7] : List Nat)) ∧
    ((7, normalizeStatusEvent rawStatusEvent) ∈ onIncomingNativeStatusUpdate [7] rawStatusEvent ∧
     (normalizeStatusEvent rawStatusEvent).bytesDownloaded = parseIntJS rawStatusEvent.bytesDownloaded ∧
     (normalizeStatusEvent rawStatusEvent).totalBytesToDownload = parseIntJS rawStatusEvent.totalBytesToDownload ∧
     (normalizeStatusEvent rawStatusEvent).otherFields = rawStatusEvent.otherFields) ∧
    parseIntJS (JSVal.str "1024") = JSVal.num 1024 ∧
    parseIntJS (JSVal.str "2048") = JSVal.num 2048 ∧
    parseIntJS (JSVal.str "not-a-number") = JSVal.nan :=
  ⟨by decide, C6_status_event_normalization [7] rawStatusEvent 7 (by decide)⟩

/-- C7: when a converter is supplied, the status is AVAILABLE and the
converter yields a falsy result, `checkNeedsUpdate` rejects with the
conversion error naming the offending native version, and the trace
records no comparator invocation of either kind (so no comparison and no
decision record is produced). -/
theorem C7_conversion_failure (o : CheckOptions) (cv : String) (conv : JSVal → JSVal)
    (info : InAppUpdateExtras)
    (h1 : o.curVersion = some cv) (h2 : cv ≠ "")
    (h3 : o.toSemverConverter = some conv)
    (h4 : info.updateAvailability = UPDATE_STATUS.AVAILABLE)
    (h5 : jsFalsy (conv info.versionCode) = true) :
    checkNeedsUpdate (some o) info =
      (Except.error
        { message := "Couldnt convert " ++ jsToString info.versionCode
            ++ " using your custom semver converter",
          originatedFrom := "checkNeedsUpdate" },
       { providerCalls := 1, defaultComparatorCalls := 0, customComparatorCalls := 0 }) := by
  have hnf : ¬(curVersionFalsy (some o) = true) := by
    simp [curVersionFalsy, h1, h2]
  have hguard : o.toSemverConverter.isSome ∧ jsFalsy (remoteSemverOf o info) := by
    constructor
    · simp [h3]
    · simpa [remoteSemverOf, h3] using h5
  simp only [checkNeedsUpdate, Option.getD_some]
  rw [if_neg hnf, h1]
  simp only [Option.getD_some]
  rw [if_pos h4, if_pos hguard]

/-- C7 witness: a converter that always returns the empty string, applied
to the native version code 123. -/
theorem C7_conversion_failure_witness :
    (emptyConvOpts.curVersion = some "1.0.0" ∧
     emptyConvOpts.toSemverConverter = some (fun _ => JSVal.str "") ∧
     numericNativeInfo.updateAvailability = UPDATE_STATUS.AVAILABLE ∧
     jsFalsy ((fun _ => JSVal.str "") numericNativeInfo.versionCode) = true) ∧
    checkNeedsUpdate (some emptyConvOpts) numericNativeInfo =
      (Except.error
        { message := "Couldnt convert " ++ jsToString numericNativeInfo.versionCode
            ++ " using your custom semver converter",
          originatedFrom := "checkNeedsUpdate" },
       { providerCalls := 1, defaultComparatorCalls := 0, customComparatorCalls := 0 }) :=
  ⟨⟨by rfl, by rfl, by decide, by decide⟩,
   C7_conversion_failure emptyConvOpts "1.0.0" (fun _ => JSVal.str "") numericNativeInfo
     (by rfl) (by decide) (by rfl) (by decide) (by decide)⟩

/-- C8: `startUpdate` calls the provider with exactly the requested
update type when it is IMMEDIATE or FLEXIBLE, and otherwise rejects with
the configuration error while the provider-invocation list stays empty. -/
theorem C8_startUpdate_validation (updateOptions : Option StartUpdateOptionsAndroid) :
    startUpdate updateOptions =
      (if isValidUpdateType (updateTypeOf updateOptions) then
        (Except.ok (), [updateTypeOf updateOptions])
       else
        (Except.error
          { message := invalidUpdateTypeMsg (updateTypeOf updateOptions),
            originatedFrom := "startUpdate" },
         ([] : List JSVal))) := by
  unfold startUpdate isValidUpdateType
  by_cases hf : updateTypeOf updateOptions = JSVal.num UPDATE_TYPE.FLEXIBLE <;>
    by_cases hi : updateTypeOf updateOptions = JSVal.num UPDATE_TYPE.IMMEDIATE <;>
    simp [hf, hi]

/-- C9: `onIncomingNativeResult` delivers the raw result payload verbatim
to the result listeners: every delivered payload equals the incoming one,
so in particular its byte-count fields, when the payload carries such
fields, are not coerced. -/
theorem C9_result_event_verbatim (registry : List Nat) (e : IncomingStatusUpdateEvent)
    (cb : Nat) (ev : IncomingStatusUpdateEvent)
    (h : (cb, ev) ∈ onIncomingNativeResult registry e) :
    ev = e ∧ ev.bytesDownloaded = e.bytesDownloaded ∧
    ev.totalBytesToDownload = e.totalBytesToDownload ∧
    (∀ c ∈ registry, (c, e) ∈ onIncomingNativeResult registry e) := by
  have hev : ev = e := by
    simp only [onIncomingNativeResult, emitEventReg, List.mem_map, Prod.mk.injEq] at h
    obtain ⟨c, _, _, h2⟩ := h
    exact h2.symm
  subst hev
  refine ⟨rfl, rfl, rfl, fun c hc => ?_⟩
  simp only [onIncomingNativeResult, emitEventReg]
  exact List.mem_map_of_mem _ hc

/-- C9 witness: a raw result event with string byte fields delivered to
listener 1 of the registry [1, 2], unchanged. -/
theorem C9_result_event_verbatim_witness :
    ((1, rawStatusEvent) ∈ onIncomingNativeResult [1, 2] rawStatusEvent) ∧
    (rawStatusEvent = rawStatusEvent ∧
     rawStatusEvent.bytesDownloaded = rawStatusEvent.bytesDownloaded ∧
     rawStatusEvent.totalBytesToDownload = rawStatusEvent.totalBytesToDownload ∧
     (∀ c ∈ ([1, 2] : List Nat), (c, rawStatusEvent) ∈ onIncomingNativeResult [1, 2] rawStatusEvent)) :=
  ⟨by decide, C9_result_event_verbatim [1, 2] rawStatusEvent 1 rawStatusEvent (by decide)⟩

/-- C10: `removeStatusUpdateListener` issues
`setStatusUpdateSubscription(false)` exactly when the registry is empty
after the removal — in particular also when it was already empty before
the call — and every `addStatusUpdateListener` call leaves the registry
non-empty and issues `setStatusUpdateSubscription(true)`, not only the
empty-to-non-empty transition. -/
theorem C10_toggle_on_resulting_state (r : List Nat) (cb : Nat) :
    (removeStatusUpdateListener r cb).2 =
      (if (removeListenerReg r cb).isEmpty then [false] else []) ∧
    (removeStatusUpdateListener [] cb).2 = [false] ∧
    ((addStatusUpdateListener r cb).1.isEmpty = false ∧
     (addStatusUpdateListener r cb).2 = [true]) := by
  refine ⟨?_, by simp [removeStatusUpdateListener, removeListenerReg, hasListenersReg], ?_⟩
  · cases h : (removeListenerReg r cb).isEmpty <;>
      simp [removeStatusUpdateListener, hasListenersReg, h]
  · exact ⟨addListenerReg_isEmpty_false r cb,
      by simp [addStatusUpdateListener, hasListenersReg, addListenerReg_isEmpty_false]⟩
